import Mathlib

/-!
Shallow embedding of src/perfect-tournament-creator.ts.

Conventions of the embedding:
  * JavaScript strings are modelled as Lean `String` and character-level
    operations work on `String.data : List Char`; character classes are
    expressed through Unicode code points (`Char.toNat`).
  * JavaScript numbers that the script only ever uses as integers
    (day numbers, clock settings, HTTP status) are modelled as `Int` or `Nat`.
  * UTC instants: the current instant `now` is represented by its day count
    since the Unix epoch (`nowEpochDay : Int`); this determines the date part
    of `now.toISOString()` and the calendar arithmetic
    `setUTCDate(getUTCDate() + offset)` becomes `nowEpochDay + offset`.
    Civil dates are recovered with the standard days-to-civil algorithm and
    ISO strings are rendered exactly as `Date.prototype.toISOString` renders
    them for years 0..9999 and in-range hours, which is the range the script
    exercises.
  * The network (`fetch`) is an oracle passed in as data: each call is given
    a `FetchResult` describing either a thrown exception (already stringified)
    or a response with status, text body, parsed JSON `id` field and an
    optional `Location` header.  File writes are recorded in the run outcome
    instead of performed.
-/

/-- Code point of the apostrophe character, used by the tournament-name
template of the script. -/
def apostrophe : Char := Char.ofNat 39

/-- Decides whether `pat` is a prefix of `s` (character lists). -/
def isPfx : List Char → List Char → Bool
  | [], _ => true
  | _ :: _, [] => false
  | a :: as, b :: bs => a = b && isPfx as bs

/-- JavaScript `String.prototype.includes`: `pat` occurs somewhere in `s`. -/
def containsSub (pat : List Char) : List Char → Bool
  | [] => isPfx pat []
  | c :: rest => isPfx pat (c :: rest) || containsSub pat rest

/-- One step of JavaScript `String.prototype.replace` with a plain string
pattern: only the first occurrence of `pat` is replaced by `rep`. -/
def replaceFirst (pat rep : List Char) : List Char → List Char
  | [] => if pat = [] then rep else []
  | c :: rest =>
    if isPfx pat (c :: rest) then rep ++ (c :: rest).drop pat.length
    else c :: replaceFirst pat rep rest

/-- JavaScript `s.replace(pat, rep)` for plain-string patterns, on `String`. -/
def jsReplace (s pat rep : String) : String :=
  String.mk (replaceFirst pat.data rep.data s.data)

/-- The whitespace code points stripped by JavaScript `String.prototype.trim`
that can occur here (ASCII whitespace, NBSP and the BOM); the remaining
Unicode space characters are omitted, which does not change the result of
`validateOAuthToken` because no whitespace character belongs to the token
character class. -/
def isJsWhitespace (c : Char) : Bool :=
  c.toNat = 32 || c.toNat = 9 || c.toNat = 10 || c.toNat = 13 ||
  c.toNat = 11 || c.toNat = 12 || c.toNat = 160 || c.toNat = 65279

/-- JavaScript `String.prototype.trim` over the modelled whitespace class. -/
def jsTrim (l : List Char) : List Char :=
  ((l.dropWhile isJsWhitespace).reverse.dropWhile isJsWhitespace).reverse

/-- Character class `[a-zA-Z0-9]`. -/
def isAlphanumChar (c : Char) : Bool :=
  (48 ≤ c.toNat && c.toNat ≤ 57) ||
  (65 ≤ c.toNat && c.toNat ≤ 90) ||
  (97 ≤ c.toNat && c.toNat ≤ 122)

/-- Character class `[a-zA-Z0-9_-]` of the token regular expression. -/
def isAllowedTokenChar (c : Char) : Bool :=
  isAlphanumChar c || c.toNat = 95 || c.toNat = 45

/-- Placeholder marker strings rejected by the token validator. -/
def markerStars : List Char := ("***").data

/-- Second placeholder marker rejected by the token validator. -/
def markerYourToken : List Char := ("YOUR_TOKEN").data

/-- Third placeholder marker rejected by the token validator. -/
def markerPlaceholder : List Char := ("PLACEHOLDER").data

/-- `validateOAuthToken` from the script: rejects the empty string (falsy in
JavaScript), whitespace-only strings, strings containing a placeholder
marker, and accepts exactly the nonempty strings over `[a-zA-Z0-9_-]` of
length greater than 10. -/
def validateOAuthToken (token : String) : Bool :=
  if token.data = [] then false
  else if jsTrim token.data = [] then false
  else if containsSub markerStars token.data || containsSub markerYourToken token.data ||
          containsSub markerPlaceholder token.data then false
  else (!(token.data = []) && token.data.all isAllowedTokenChar) &&
       decide (token.data.length > 10)

/-- The two tournament kinds produced each day. -/
inductive TType where
  | Day : TType
  | Night : TType
deriving DecidableEq, Repr

/-- The string label of a tournament kind, as interpolated by the script. -/
def typeLabel : TType → String
  | TType.Day => "Day"
  | TType.Night => "Night"

/-- `buildTournamentName` from the script: the template
`LMAO <type> <apostrophe><dayNum><apostrophe>`. -/
def buildTournamentName (dayNum : Int) (ty : TType) : String :=
  "LMAO " ++ typeLabel ty ++ " " ++ String.mk [apostrophe] ++ toString dayNum ++
  String.mk [apostrophe]

/-- `buildDescription` from the script: one first-occurrence replace of
the TYPE placeholder, then one first-occurrence replace of the DAY_NUM
placeholder. -/
def buildDescription (dayNum : Int) (ty : TType) (template : String) : String :=
  jsReplace (jsReplace template "\x7bTYPE\x7d" (typeLabel ty)) "\x7bDAY_NUM\x7d"
    (toString dayNum)

/-- Days-to-civil-date conversion (the standard algorithm used by every
calendar library, equivalent to what `Date.prototype.toISOString` computes):
given a day count since 1970-01-01, return (year, month, day). -/
def civilFromDays (z : Int) : Int × Nat × Nat :=
  let era : Int := Int.fdiv (z + 719468) 146097
  let doe : Nat := (z + 719468 - era * 146097).toNat
  let yoe : Nat := (doe - doe / 1460 + doe / 36524 - doe / 146096) / 365
  let doy : Nat := doe - (365 * yoe + yoe / 4 - yoe / 100)
  let mp : Nat := (5 * doy + 2) / 153
  let d : Nat := doy - (153 * mp + 2) / 5 + 1
  let m : Nat := if mp < 10 then mp + 3 else mp - 9
  (era * 400 + yoe + (if m ≤ 2 then 1 else 0), m, d)

/-- Zero-padded two-digit rendering of a day, month, hour or minute. -/
def pad2 (n : Nat) : String :=
  if n < 10 then "0" ++ toString n else toString n

/-- Zero-padded four-digit rendering of a year (the script only ever runs in
years 1970..9999, where this matches `toISOString`). -/
def pad4 (y : Int) : String :=
  if y < 10 then "000" ++ toString y
  else if y < 100 then "00" ++ toString y
  else if y < 1000 then "0" ++ toString y
  else toString y

/-- `createTournamentDate` from the script: the UTC instant at the given
civil date, hour and minute, rendered as `Date.prototype.toISOString`
renders it (seconds and milliseconds are always zero here). -/
def createTournamentDate (year : Int) (month day hour minute : Nat) : String :=
  pad4 year ++ "-" ++ pad2 month ++ "-" ++ pad2 day ++ "T" ++ pad2 hour ++ ":" ++
  pad2 minute ++ ":00.000Z"

/-- The `YYYY-MM-DD` date string `now.toISOString().split(T)[0]` that the
script uses as idempotence key, as a function of the epoch day of `now`. -/
def todayOf (nowEpochDay : Int) : String :=
  let cd := civilFromDays nowEpochDay
  pad4 cd.1 ++ "-" ++ pad2 cd.2.1 ++ "-" ++ pad2 cd.2.2

/-- The persisted settings record (`TournamentSettings` in the script). -/
structure TournamentSettings where
  hostTeamId : String
  description : String
  lastTournamentDayNum : Int
  leadersPerTeam : Int
  dayStartHour : Nat
  nightStartHour : Nat
  tournamentDurationMinutes : Int
  clockTimeMinutes : Int
  clockIncrementSeconds : Int
  rated : Bool
  variant : String
deriving DecidableEq, Repr

/-- The persisted state record (`TournamentState` in the script). -/
structure TournamentState where
  lastCreationDate : String
deriving DecidableEq, Repr

/-- One ephemeral tournament definition produced by the scheduling loop. -/
structure TournamentDef where
  name : String
  description : String
  startDateISO : String
  dayNum : Int
  ttype : TType
deriving DecidableEq, Repr

/-- The scheduling loop of `main`: for each of the 7 day offsets, push a Day
definition then a Night definition, with `dayNum = nextDayNum + offset` and
start instants at the configured hours on `now + offset` days. -/
def mkTournaments (settings : TournamentSettings) (nowEpochDay : Int)
    (nextDayNum : Int) : List TournamentDef :=
  ((List.range 7).map (fun dayOffset =>
    let tournamentDayNum : Int := nextDayNum + (dayOffset : Int)
    let cd := civilFromDays (nowEpochDay + (dayOffset : Int))
    [ { name := buildTournamentName tournamentDayNum TType.Day,
        description := buildDescription tournamentDayNum TType.Day settings.description,
        startDateISO := createTournamentDate cd.1 cd.2.1 cd.2.2 settings.dayStartHour 0,
        dayNum := tournamentDayNum, ttype := TType.Day },
      { name := buildTournamentName tournamentDayNum TType.Night,
        description := buildDescription tournamentDayNum TType.Night settings.description,
        startDateISO := createTournamentDate cd.1 cd.2.1 cd.2.2 settings.nightStartHour 0,
        dayNum := tournamentDayNum, ttype := TType.Night } ])).flatten

/-- `Math.max(...)` over a list of integers (the list is never empty where
the script uses it; the default for the empty list is irrelevant). -/
def listMax (l : List Int) : Int :=
  l.foldl max (l.headD 0)

/-- The parameter bundle of `createTeamBattle` in the script. -/
structure CreateParams where
  server : String
  token : String
  name : String
  description : String
  clockTime : Int
  clockIncrement : Int
  minutes : Int
  rated : Bool
  variant : String
  startDateISO : String
  hostTeamId : String
  teams : List String
  dryRun : Bool
deriving DecidableEq, Repr

/-- The normalized result of one submission (`{ok, url?, error?}`). -/
structure SubmissionResult where
  ok : Bool
  url : Option String
  error : Option String
deriving DecidableEq, Repr

/-- Outcome of `res.json()`: either it threw (the constructor carries
`String(error)`), or it parsed an object whose optional `id` field is
carried. -/
inductive JsonParse where
  | failed : String → JsonParse
  | parsed : Option String → JsonParse
deriving DecidableEq, Repr

/-- The behaviour of one `fetch` call, supplied as data: either the call
threw (the constructor carries `String(error)`), or it returned a response
with an HTTP status, a text body, the outcome of `res.json()`, and an
optional `Location` header. -/
inductive FetchResult where
  | exn : String → FetchResult
  | resp : Nat → String → JsonParse → Option String → FetchResult
deriving DecidableEq, Repr

/-- The invited-team list built by `createTeamBattle`: the incoming `teams`
with falsy entries and the host team itself filtered out. -/
def invitedTeams (p : CreateParams) : List String :=
  p.teams.filter (fun t => !(t = "") && !(t = p.hostTeamId))

/-- The form-encoded request body built by `createTeamBattle`, as an ordered
list of key-value pairs (`URLSearchParams` plus the two `append` calls). -/
def buildBody (p : CreateParams) : List (String × String) :=
  [("name", p.name), ("description", p.description),
   ("clockTime", toString p.clockTime), ("clockIncrement", toString p.clockIncrement),
   ("minutes", toString p.minutes), ("rated", if p.rated then "true" else "false"),
   ("variant", p.variant), ("startDate", p.startDateISO),
   ("teamBattleByTeam", p.hostTeamId)] ++
  (invitedTeams p).map (fun t => ("teams[]", t))

/-- The error message returned for an invalid credential. -/
def invalidTokenMsg : String :=
  "Invalid or missing OAuth token. Please set a valid OAUTH_TOKEN environment variable."

/-- `res.ok` of the Fetch API: status in the 2xx range. -/
def statusOk (status : Nat) : Bool :=
  decide (200 ≤ status) && decide (status < 300)

/-- JavaScript `a || b` fallback for the `Location` header: a missing or
empty header falls back to the literal string `unknown`. -/
def locationOr (location : Option String) : String :=
  match location with
  | some l => if l = "" then "unknown" else l
  | none => "unknown"

/-- `createTeamBattle` from the script.  Returns the submission result
together with a flag recording whether the network was touched (`fetch`
was called).  Dry-run mode and credential rejection perform no network
call; every other path performs exactly one. -/
def createTeamBattle (p : CreateParams) (net : FetchResult) :
    SubmissionResult × Bool :=
  if !validateOAuthToken p.token then
    ({ ok := false, url := none, error := some invalidTokenMsg }, false)
  else if p.dryRun then
    ({ ok := true,
       url := some (p.server ++ "/team/" ++ p.hostTeamId ++ "/arena/pending"),
       error := none }, false)
  else
    match net with
    | FetchResult.exn msg => ({ ok := false, url := none, error := some msg }, true)
    | FetchResult.resp status bodyText jsonOutcome location =>
      if !statusOk status then
        ({ ok := false, url := none,
           error := some (toString status ++ ": " ++ bodyText) }, true)
      else
        match jsonOutcome with
        | JsonParse.failed msg => ({ ok := false, url := none, error := some msg }, true)
        | JsonParse.parsed idField =>
          let url :=
            match idField with
            | some i => if i = "" then locationOr location
                        else p.server ++ "/tournament/" ++ i
            | none => locationOr location
          ({ ok := true, url := some url, error := none }, true)

/-- The environment a run of `main` observes: the two environment variables,
the two configuration files (reading either may fail, modelled by `Except`),
the current instant (its epoch day), and the network oracle giving the
behaviour of the i-th `fetch` call of the run. -/
structure Env where
  oauthToken : Option String
  dryRunVar : Option String
  settingsFile : Except String TournamentSettings
  stateFile : Except String TournamentState
  nowEpochDay : Int
  net : Nat → FetchResult

/-- The dry-run flag: `DRY_RUN === "1" || DRY_RUN === "true"`. -/
def dryRunOf (env : Env) : Bool :=
  decide (env.dryRunVar = some "1") || decide (env.dryRunVar = some "true")

/-- The state record after the load-or-default step of `main`: an unreadable
state file is replaced by the default record with an empty date. -/
def loadedState (env : Env) : TournamentState :=
  match env.stateFile with
  | Except.ok s => s
  | Except.error _ => { lastCreationDate := "" }

/-- The argument bundle `main` passes to `createTeamBattle` for one
tournament definition: the fixed server, the credential, the settings-derived
clock fields, and — important for the invite-list claims — `teams` containing
exactly the host team id itself. -/
def mkParams (tok : String) (settings : TournamentSettings) (dryRun : Bool)
    (t : TournamentDef) : CreateParams :=
  { server := "https://lichess.org", token := tok, name := t.name,
    description := t.description, clockTime := settings.clockTimeMinutes,
    clockIncrement := settings.clockIncrementSeconds,
    minutes := settings.tournamentDurationMinutes, rated := settings.rated,
    variant := settings.variant, startDateISO := t.startDateISO,
    hostTeamId := settings.hostTeamId, teams := [settings.hostTeamId],
    dryRun := dryRun }

/-- The submission loop of `main`: the i-th definition is submitted against
the i-th network behaviour (the 10-second inter-request delay has no
observable effect in this model and is dropped). -/
def submitAll (net : Nat → FetchResult) (tok : String)
    (settings : TournamentSettings) (dryRun : Bool) :
    List TournamentDef → Nat → List (SubmissionResult × Bool)
  | [], _ => []
  | t :: rest, i =>
    createTeamBattle (mkParams tok settings dryRun t) (net i) ::
    submitAll net tok settings dryRun rest (i + 1)

/-- Everything observable about one run of `main`: the process exit code,
the per-submission results paired with their network-call flags, the two
counters, and the records written to the two files (`none` = no write). -/
structure RunOutcome where
  exitCode : Nat
  results : List (SubmissionResult × Bool)
  successCount : Nat
  failureCount : Nat
  settingsWritten : Option TournamentSettings
  stateWritten : Option TournamentState
deriving DecidableEq, Repr

/-- Outcome of the idempotence-guard short circuit (`return` from `main`). -/
def guardOutcome : RunOutcome :=
  { exitCode := 0, results := [], successCount := 0, failureCount := 0,
    settingsWritten := none, stateWritten := none }

/-- Outcome of a fatal initialization error (outer catch, `process.exit(1)`). -/
def fatalOutcome : RunOutcome :=
  { exitCode := 1, results := [], successCount := 0, failureCount := 0,
    settingsWritten := none, stateWritten := none }

/-- The body of `main` past the idempotence guard: build the schedule from
`lastTournamentDayNum + 1`, submit every definition, count successes and
failures, write both records if and only if at least one submission
succeeded (the new counter being the maximum attempted `dayNum`), and exit
nonzero exactly when some submission failed. -/
def mainLoop (env : Env) (tok : String) (settings : TournamentSettings) :
    RunOutcome :=
  let tournaments := mkTournaments settings env.nowEpochDay
    (settings.lastTournamentDayNum + 1)
  let results := submitAll env.net tok settings (dryRunOf env) tournaments 0
  let successCount := (results.filter (fun r => r.1.ok)).length
  let failureCount := (results.filter (fun r => !r.1.ok)).length
  { exitCode := if failureCount > 0 then 1 else 0,
    results := results,
    successCount := successCount,
    failureCount := failureCount,
    settingsWritten :=
      if successCount > 0 then
        some { settings with
               lastTournamentDayNum := listMax (tournaments.map (fun t => t.dayNum)) }
      else none,
    stateWritten :=
      if successCount > 0 then some { lastCreationDate := todayOf env.nowEpochDay }
      else none }

/-- `main` from the script: fatal if the credential is absent or falsy or the
settings file is unreadable; default the state record if its file is
unreadable; short-circuit with no submissions and no writes when the state
already records a creation today; otherwise run the schedule-and-submit
loop. -/
def runMain (env : Env) : RunOutcome :=
  match env.oauthToken with
  | none => fatalOutcome
  | some tok =>
    if tok = "" then fatalOutcome
    else
      match env.settingsFile with
      | Except.error _ => fatalOutcome
      | Except.ok settings =>
        if (loadedState env).lastCreationDate = todayOf env.nowEpochDay then
          guardOutcome
        else mainLoop env tok settings


/-- A network oracle on which every real submission succeeds: each call
returns HTTP 200 with a JSON body carrying an id.  Used to compare a dry run
against a real fully successful run. -/
def realNet : Nat → FetchResult :=
  fun _ => FetchResult.resp 200 "" (JsonParse.parsed (some "x1")) none

/-- A concrete settings record used by the witnesses. -/
def witSettings : TournamentSettings :=
  { hostTeamId := "lmao-team", description := "Battle \x7bTYPE\x7d #\x7bDAY_NUM\x7d",
    lastTournamentDayNum := 4, leadersPerTeam := 20, dayStartHour := 14,
    nightStartHour := 20, tournamentDurationMinutes := 60, clockTimeMinutes := 3,
    clockIncrementSeconds := 2, rated := true, variant := "standard" }

/-- A concrete valid credential used by the witnesses. -/
def witToken : String := "abcdefghij12345"

/-- A concrete submission-parameter bundle used by the witnesses. -/
def witParams : CreateParams :=
  { server := "https://lichess.org", token := witToken, name := "n",
    description := "d", clockTime := 3, clockIncrement := 2, minutes := 60,
    rated := true, variant := "standard",
    startDateISO := "2024-10-04T14:00:00.000Z", hostTeamId := "lmao-team",
    teams := ["lmao-team"], dryRun := false }

/-- The same bundle with an invalid (too short) credential. -/
def witParamsBad : CreateParams := { witParams with token := "abc" }

/-- A concrete environment whose state file already records a creation
today: the idempotence guard fires. -/
def witEnvGuard : Env :=
  { oauthToken := some witToken, dryRunVar := none,
    settingsFile := Except.ok witSettings,
    stateFile := Except.ok { lastCreationDate := todayOf 20000 },
    nowEpochDay := 20000, net := fun _ => FetchResult.exn "x" }

/-- A concrete environment with dry-run mode on, a valid credential, and an
empty state record: all 14 submissions succeed without the network. -/
def witEnvDry : Env :=
  { oauthToken := some witToken, dryRunVar := some "1",
    settingsFile := Except.ok witSettings,
    stateFile := Except.ok { lastCreationDate := "" },
    nowEpochDay := 20000, net := fun _ => FetchResult.exn "x" }

/-- The dry-run environment with an invalid (too short) credential. -/
def witEnvBadDry : Env := { witEnvDry with oauthToken := some "abc" }

/-- A concrete environment with the credential absent: fatal init error. -/
def witEnvFatal : Env := { witEnvDry with oauthToken := none }


theorem runMain_guard (env : Env) (tok : String) (settings : TournamentSettings)
    (htok : env.oauthToken = some tok) (hne : tok ≠ "")
    (hs : env.settingsFile = Except.ok settings)
    (hg : (loadedState env).lastCreationDate = todayOf env.nowEpochDay) :
    runMain env = guardOutcome := by
  unfold runMain
  rw [htok, hs]
  simp [hne, hg]

theorem runMain_loop (env : Env) (tok : String) (settings : TournamentSettings)
    (htok : env.oauthToken = some tok) (hne : tok ≠ "")
    (hs : env.settingsFile = Except.ok settings)
    (hg : (loadedState env).lastCreationDate ≠ todayOf env.nowEpochDay) :
    runMain env = mainLoop env tok settings := by
  unfold runMain
  rw [htok, hs]
  simp [hne, hg]

theorem runMain_fatal (env : Env)
    (h : env.oauthToken = none ∨ env.oauthToken = some "" ∨
         ∃ e, env.settingsFile = Except.error e) :
    runMain env = fatalOutcome := by
  unfold runMain
  rcases h with h | h | ⟨e, h⟩
  · rw [h]
  · rw [h]; simp
  · rw [h]
    cases henv : env.oauthToken with
    | none => rfl
    | some tok =>
      by_cases ht : tok = "" <;> simp [ht]

theorem mkT_dayNums (s : TournamentSettings) (d n : Int) :
    (mkTournaments s d n).map (fun t => t.dayNum) =
    [n, n, n+1, n+1, n+2, n+2, n+3, n+3, n+4, n+4, n+5, n+5, n+6, n+6] := by
  simp [mkTournaments, List.range_succ]

theorem mkT_len (s : TournamentSettings) (d n : Int) :
    (mkTournaments s d n).length = 14 := by
  simp [mkTournaments, List.range_succ]

theorem listMax_mkT (s : TournamentSettings) (d n : Int) :
    listMax ((mkTournaments s d n).map (fun t => t.dayNum)) = n + 6 := by
  rw [mkT_dayNums]
  simp [listMax, List.foldl]

theorem ctb_invalid (p : CreateParams) (net : FetchResult)
    (h : validateOAuthToken p.token = false) :
    createTeamBattle p net =
      ({ ok := false, url := none, error := some invalidTokenMsg }, false) := by
  simp [createTeamBattle, h]

theorem ctb_dry (p : CreateParams) (net : FetchResult)
    (hv : validateOAuthToken p.token = true) (hd : p.dryRun = true) :
    createTeamBattle p net =
      ({ ok := true,
         url := some (p.server ++ "/team/" ++ p.hostTeamId ++ "/arena/pending"),
         error := none }, false) := by
  simp [createTeamBattle, hv, hd]

theorem ctb_exn (p : CreateParams) (e : String)
    (hv : validateOAuthToken p.token = true) (hd : p.dryRun = false) :
    createTeamBattle p (FetchResult.exn e) =
      ({ ok := false, url := none, error := some e }, true) := by
  simp [createTeamBattle, hv, hd]

theorem ctb_httpfail (p : CreateParams) (status : Nat) (bodyText : String)
    (js : JsonParse) (loc : Option String)
    (hv : validateOAuthToken p.token = true) (hd : p.dryRun = false)
    (hst : statusOk status = false) :
    createTeamBattle p (FetchResult.resp status bodyText js loc) =
      ({ ok := false, url := none,
         error := some (toString status ++ ": " ++ bodyText) }, true) := by
  simp [createTeamBattle, hv, hd, hst]

theorem ctb_ok_id (p : CreateParams) (status : Nat) (bodyText : String)
    (i : String) (loc : Option String)
    (hv : validateOAuthToken p.token = true) (hd : p.dryRun = false)
    (hst : statusOk status = true) (hi : i ≠ "") :
    createTeamBattle p (FetchResult.resp status bodyText (JsonParse.parsed (some i)) loc) =
      ({ ok := true, url := some (p.server ++ "/tournament/" ++ i),
         error := none }, true) := by
  simp [createTeamBattle, hv, hd, hst, hi]

theorem submitAll_const (net : Nat → FetchResult) (tok : String)
    (settings : TournamentSettings) (dryRun : Bool) (r : SubmissionResult × Bool)
    (h : ∀ t i, createTeamBattle (mkParams tok settings dryRun t) (net i) = r) :
    ∀ (l : List TournamentDef) (i : Nat),
      submitAll net tok settings dryRun l i = List.replicate l.length r := by
  intro l
  induction l with
  | nil => intro i; rfl
  | cons t rest ih =>
    intro i
    simp [submitAll, h t i, ih (i + 1), List.replicate]

theorem filter_replicate_pos {α : Type} (p : α → Bool) (r : α) (h : p r = true) :
    ∀ n, (List.replicate n r).filter p = List.replicate n r := by
  intro n
  induction n with
  | zero => rfl
  | succ k ih => simp [List.replicate, h, ih]

theorem filter_replicate_neg {α : Type} (p : α → Bool) (r : α) (h : p r = false) :
    ∀ n, (List.replicate n r).filter p = [] := by
  intro n
  induction n with
  | zero => rfl
  | succ k ih => simp [List.replicate, h, ih]

theorem isPfx_mem (pat : List Char) :
    ∀ s, isPfx pat s = true → ∀ c ∈ pat, c ∈ s := by
  induction pat with
  | nil => intro s _ c hc; cases hc
  | cons a as ih =>
    intro s h c hc
    cases s with
    | nil => cases h
    | cons b bs =>
      simp only [isPfx, Bool.and_eq_true] at h
      rcases h with ⟨hab, hrest⟩
      rcases List.mem_cons.mp hc with hca | hca
      · have hcb : c = b := by
          rw [hca]
          exact decide_eq_true_eq.mp hab
        rw [hcb]
        exact List.mem_cons_self b bs
      · exact List.mem_cons_of_mem b (ih bs hrest c hca)

theorem containsSub_mem (pat : List Char) :
    ∀ l, containsSub pat l = true → ∀ c ∈ pat, c ∈ l := by
  intro l
  induction l with
  | nil =>
    intro h c hc
    cases pat with
    | nil => cases hc
    | cons a as => cases h
  | cons b bs ih =>
    intro h c hc
    simp only [containsSub, Bool.or_eq_true] at h
    rcases h with h | h
    · exact isPfx_mem pat _ h c hc
    · exact List.mem_cons_of_mem b (ih h c hc)

theorem alnum_not_ws (c : Char) (h : isAlphanumChar c = true) :
    isJsWhitespace c = false := by
  simp only [isAlphanumChar, Bool.or_eq_true, Bool.and_eq_true, decide_eq_true_eq] at h
  simp only [isJsWhitespace, Bool.or_eq_false_iff, decide_eq_false_iff_not]
  omega

theorem alnum_allowed (c : Char) (h : isAlphanumChar c = true) :
    isAllowedTokenChar c = true := by
  simp [isAllowedTokenChar, h]

theorem ws_not_allowed (c : Char) (h : isJsWhitespace c = true) :
    isAllowedTokenChar c = false := by
  simp only [isJsWhitespace, Bool.or_eq_true, decide_eq_true_eq] at h
  simp only [isAllowedTokenChar, isAlphanumChar, Bool.or_eq_false_iff,
    Bool.and_eq_false_iff, decide_eq_false_iff_not]
  omega

theorem dropWhile_all_false {p : Char → Bool} {l : List Char}
    (h : ∀ c ∈ l, p c = false) : l.dropWhile p = l := by
  cases l with
  | nil => rfl
  | cons c cs => simp [List.dropWhile, h c (List.mem_cons_self c cs)]

theorem jsTrim_id {l : List Char} (h : ∀ c ∈ l, isJsWhitespace c = false) :
    jsTrim l = l := by
  unfold jsTrim
  rw [dropWhile_all_false h, dropWhile_all_false (by
    intro c hc
    exact h c (List.mem_reverse.mp hc)), List.reverse_reverse]

theorem validate_false_of_badchar (t : String)
    (h : ∃ c ∈ t.data, isAllowedTokenChar c = false) :
    validateOAuthToken t = false := by
  rcases h with ⟨c, hc, hbad⟩
  have hall : t.data.all isAllowedTokenChar = false := by
    by_contra hcon
    have := List.all_eq_true.mp (Bool.of_not_eq_false hcon) c hc
    rw [hbad] at this
    cases this
  unfold validateOAuthToken
  split
  · rfl
  · split
    · rfl
    · split
      · rfl
      · simp [hall]

theorem starChar_mem : Char.ofNat 42 ∈ markerStars := by decide

theorem underscoreChar_mem : Char.ofNat 95 ∈ markerYourToken := by decide

theorem mkT_types (s : TournamentSettings) (d n : Int) :
    (mkTournaments s d n).map (fun t => t.ttype) =
    [TType.Day, TType.Night, TType.Day, TType.Night, TType.Day, TType.Night,
     TType.Day, TType.Night, TType.Day, TType.Night, TType.Day, TType.Night,
     TType.Day, TType.Night] := by
  simp [mkTournaments, List.range_succ]

theorem loop_writes (env : Env) (tok : String) (settings : TournamentSettings) :
    (0 < (mainLoop env tok settings).successCount →
      (mainLoop env tok settings).settingsWritten =
        some { settings with
               lastTournamentDayNum := settings.lastTournamentDayNum + 1 + 6 } ∧
      (mainLoop env tok settings).stateWritten =
        some { lastCreationDate := todayOf env.nowEpochDay }) ∧
    ((mainLoop env tok settings).successCount = 0 →
      (mainLoop env tok settings).settingsWritten = none ∧
      (mainLoop env tok settings).stateWritten = none) := by
  simp only [mainLoop, listMax_mkT]
  constructor
  · intro h
    simp [if_pos h]
  · intro h
    rw [h]
    simp

/-- Claim C1: if the persisted state record has `lastCreationDate` equal to
the current UTC date, a run of the orchestrator performs zero submissions
(the result list is empty, so in particular no network call is made), writes
neither the settings record nor the state record, and exits with code 0. -/
theorem spec_idempotence_guard (env : Env) (tok : String) (settings : TournamentSettings)
    (st : TournamentState)
    (htok : env.oauthToken = some tok) (hne : tok ≠ "")
    (hs : env.settingsFile = Except.ok settings)
    (hst : env.stateFile = Except.ok st)
    (hd : st.lastCreationDate = todayOf env.nowEpochDay) :
    (runMain env).exitCode = 0 ∧ (runMain env).results = [] ∧
    (runMain env).settingsWritten = none ∧ (runMain env).stateWritten = none := by
  have hg : (loadedState env).lastCreationDate = todayOf env.nowEpochDay := by
    simp [loadedState, hst, hd]
  rw [runMain_guard env tok settings htok hne hs hg]
  exact ⟨rfl, rfl, rfl, rfl⟩

/-- Claim C2: past the guard, the maximum dayNum over all 14 attempted
definitions is always `startDayNum + 6` (with `startDayNum =
lastTournamentDayNum + 1`), and at the end of the run: if at least one
submission succeeded, the settings record is persisted with
`lastTournamentDayNum` set to that maximum and the state record is persisted
with `lastCreationDate = today`; if no submission succeeded, neither record
is written. -/
theorem spec_finalize_persistence (env : Env) (tok : String)
    (settings : TournamentSettings)
    (htok : env.oauthToken = some tok) (hne : tok ≠ "")
    (hs : env.settingsFile = Except.ok settings)
    (hg : (loadedState env).lastCreationDate ≠ todayOf env.nowEpochDay) :
    listMax ((mkTournaments settings env.nowEpochDay
        (settings.lastTournamentDayNum + 1)).map (fun t => t.dayNum)) =
      settings.lastTournamentDayNum + 1 + 6 ∧
    ((0 < (runMain env).successCount →
      (runMain env).settingsWritten =
        some { settings with
               lastTournamentDayNum := settings.lastTournamentDayNum + 1 + 6 } ∧
      (runMain env).stateWritten =
        some { lastCreationDate := todayOf env.nowEpochDay }) ∧
    ((runMain env).successCount = 0 →
      (runMain env).settingsWritten = none ∧
      (runMain env).stateWritten = none)) := by
  constructor
  · exact listMax_mkT settings env.nowEpochDay (settings.lastTournamentDayNum + 1)
  · rw [runMain_loop env tok settings htok hne hs hg]
    exact loop_writes env tok settings

/-- Claim C3: for every base date and every startDayNum the schedule
calculator produces exactly 14 definitions, ordered Day-then-Night within a
day with days ascending, the dayNum sequence being each of
startDayNum..startDayNum+6 twice; in particular for startDayNum = 5 the
sequence is 5,5,6,6,7,7,8,8,9,9,10,10,11,11. -/
theorem spec_schedule_shape (s : TournamentSettings) (d n : Int) :
    (mkTournaments s d n).length = 14 ∧
    (mkTournaments s d n).map (fun t => t.dayNum) =
      [n, n, n+1, n+1, n+2, n+2, n+3, n+3, n+4, n+4, n+5, n+5, n+6, n+6] ∧
    (mkTournaments s d n).map (fun t => t.ttype) =
      [TType.Day, TType.Night, TType.Day, TType.Night, TType.Day, TType.Night,
       TType.Day, TType.Night, TType.Day, TType.Night, TType.Day, TType.Night,
       TType.Day, TType.Night] ∧
    (mkTournaments s d 5).map (fun t => t.dayNum) =
      [5, 5, 6, 6, 7, 7, 8, 8, 9, 9, 10, 10, 11, 11] := by
  refine ⟨mkT_len s d n, mkT_dayNums s d n, mkT_types s d n, ?_⟩
  rw [mkT_dayNums]
  norm_num

/-- Claim C4: with dry-run enabled and a valid credential, every submitted
definition yields ok with the URL of the pending page of the host team and
no network call is made (every network flag in the results is false), the
run exits 0, and settings/state are persisted exactly as in a real fully
successful run (an otherwise identical environment without dry-run whose
fetch calls all succeed). -/
theorem spec_dry_run (env : Env) (tok : String) (settings : TournamentSettings)
    (htok : env.oauthToken = some tok) (hne : tok ≠ "")
    (hs : env.settingsFile = Except.ok settings)
    (hg : (loadedState env).lastCreationDate ≠ todayOf env.nowEpochDay)
    (hdry : dryRunOf env = true) (hv : validateOAuthToken tok = true) :
    (runMain env).results =
      List.replicate 14
        ({ ok := true,
           url := some ("https://lichess.org" ++ "/team/" ++ settings.hostTeamId ++ "/arena/pending"),
           error := none }, false) ∧
    (∀ r ∈ (runMain env).results, r.1.ok = true ∧ r.2 = false) ∧
    (runMain env).settingsWritten =
      some { settings with lastTournamentDayNum := settings.lastTournamentDayNum + 1 + 6 } ∧
    (runMain env).stateWritten = some { lastCreationDate := todayOf env.nowEpochDay } ∧
    (runMain env).exitCode = 0 ∧
    (runMain env).settingsWritten =
      (runMain { env with dryRunVar := none, net := realNet }).settingsWritten ∧
    (runMain env).stateWritten =
      (runMain { env with dryRunVar := none, net := realNet }).stateWritten := by
  have hall : ∀ (t : TournamentDef) (i : Nat),
      createTeamBattle (mkParams tok settings (dryRunOf env) t) (env.net i) =
      ({ ok := true,
         url := some ("https://lichess.org" ++ "/team/" ++ settings.hostTeamId ++ "/arena/pending"),
         error := none }, false) := by
    intro t i
    rw [ctb_dry _ _ (by simpa [mkParams] using hv) (by simp [mkParams, hdry])]
    simp [mkParams]
  have hrunloop := runMain_loop env tok settings htok hne hs hg
  have hresults : (runMain env).results =
      List.replicate 14
        ({ ok := true,
           url := some ("https://lichess.org" ++ "/team/" ++ settings.hostTeamId ++ "/arena/pending"),
           error := none }, false) := by
    rw [hrunloop]
    simp only [mainLoop]
    rw [submitAll_const _ _ _ _ _ hall, mkT_len]
  have hsc : (runMain env).successCount = 14 := by
    rw [hrunloop]
    simp only [mainLoop]
    rw [submitAll_const _ _ _ _ _ hall, mkT_len,
        filter_replicate_pos (fun (r : SubmissionResult × Bool) => r.1.ok)
          ({ ok := true,
             url := some ("https://lichess.org" ++ "/team/" ++ settings.hostTeamId ++ "/arena/pending"),
             error := none }, false) rfl]
    simp
  have hfc : (runMain env).failureCount = 0 := by
    rw [hrunloop]
    simp only [mainLoop]
    rw [submitAll_const _ _ _ _ _ hall, mkT_len,
        filter_replicate_neg (fun (r : SubmissionResult × Bool) => !r.1.ok)
          ({ ok := true,
             url := some ("https://lichess.org" ++ "/team/" ++ settings.hostTeamId ++ "/arena/pending"),
             error := none }, false) rfl]
    rfl
  -- the dry run writes
  have hw := (loop_writes env tok settings).1 (by
    rw [hrunloop] at hsc
    omega)
  rw [← hrunloop] at hw
  -- the real fully successful run
  set envR : Env := { env with dryRunVar := none, net := realNet } with henvR
  have htokR : envR.oauthToken = some tok := htok
  have hsR : envR.settingsFile = Except.ok settings := hs
  have hgR : (loadedState envR).lastCreationDate ≠ todayOf envR.nowEpochDay := by
    simp only [henvR, loadedState]
    exact hg
  have hallR : ∀ (t : TournamentDef) (i : Nat),
      createTeamBattle (mkParams tok settings (dryRunOf envR) t) (envR.net i) =
      ({ ok := true, url := some ("https://lichess.org" ++ "/tournament/" ++ "x1"),
         error := none }, true) := by
    intro t i
    have hdR : dryRunOf envR = false := by simp [dryRunOf, henvR]
    have := ctb_ok_id (mkParams tok settings (dryRunOf envR) t) 200 "" "x1" none
      (by simpa [mkParams] using hv) (by simp [mkParams, hdR]) (by decide) (by decide)
    rw [show envR.net i = FetchResult.resp 200 "" (JsonParse.parsed (some "x1")) none from rfl]
    rw [this]
    simp [mkParams]
  have hrunloopR := runMain_loop envR tok settings htokR hne hsR hgR
  have hscR : (runMain envR).successCount = 14 := by
    rw [hrunloopR]
    simp only [mainLoop]
    rw [submitAll_const _ _ _ _ _ hallR, mkT_len,
        filter_replicate_pos (fun (r : SubmissionResult × Bool) => r.1.ok)
          ({ ok := true, url := some ("https://lichess.org" ++ "/tournament/" ++ "x1"),
             error := none }, true) rfl]
    simp
  have hwR := (loop_writes envR tok settings).1 (by
    rw [hrunloopR] at hscR
    omega)
  rw [← hrunloopR] at hwR
  have htodR : todayOf envR.nowEpochDay = todayOf env.nowEpochDay := rfl
  refine ⟨hresults, ?_, hw.1, hw.2, ?_, ?_, ?_⟩
  · intro r hr
    have := List.eq_of_mem_replicate (hresults ▸ hr)
    rw [this]
    exact ⟨rfl, rfl⟩
  · rw [hrunloop]
    simp only [mainLoop]
    rw [submitAll_const _ _ _ _ _ hall, mkT_len,
        filter_replicate_neg (fun (r : SubmissionResult × Bool) => !r.1.ok)
          ({ ok := true,
             url := some ("https://lichess.org" ++ "/team/" ++ settings.hostTeamId ++ "/arena/pending"),
             error := none }, false) rfl]
    rfl
  · rw [hw.1, hwR.1]
  · rw [hw.2, hwR.2, htodR]

/-- Claim C5: the submission client never propagates a fault: an invalid
credential yields ok = false with the fixed error message and no network
attempt; a non-success HTTP status yields ok = false with error
status-colon-body; and a network exception is caught and converted into
ok = false carrying the stringified error. -/
theorem spec_submission_error_handling :
    (∀ (p : CreateParams) (net : FetchResult), validateOAuthToken p.token = false →
      createTeamBattle p net =
        ({ ok := false, url := none, error := some invalidTokenMsg }, false)) ∧
    (∀ (p : CreateParams) (status : Nat) (bodyText : String) (js : JsonParse)
        (loc : Option String),
      validateOAuthToken p.token = true → p.dryRun = false → statusOk status = false →
      createTeamBattle p (FetchResult.resp status bodyText js loc) =
        ({ ok := false, url := none,
           error := some (toString status ++ ": " ++ bodyText) }, true)) ∧
    (∀ (p : CreateParams) (e : String),
      validateOAuthToken p.token = true → p.dryRun = false →
      createTeamBattle p (FetchResult.exn e) =
        ({ ok := false, url := none, error := some e }, true)) := by
  exact ⟨fun p net h => ctb_invalid p net h,
    fun p status bodyText js loc hv hd hst => ctb_httpfail p status bodyText js loc hv hd hst,
    fun p e hv hd => ctb_exn p e hv hd⟩

/-- Claim C6: in a run that passes initialization, the exit code is 0 iff
the failure count is 0 (including the guard short circuit); a fatal
initialization error (missing or empty credential, unreadable settings)
exits 1. -/
theorem spec_exit_codes :
    (∀ (env : Env) (tok : String) (settings : TournamentSettings),
      env.oauthToken = some tok → tok ≠ "" → env.settingsFile = Except.ok settings →
      ((runMain env).exitCode = 0 ↔ (runMain env).failureCount = 0)) ∧
    (∀ env : Env,
      (env.oauthToken = none ∨ env.oauthToken = some "" ∨
        ∃ e, env.settingsFile = Except.error e) →
      (runMain env).exitCode = 1) := by
  constructor
  · intro env tok settings htok hne hs
    by_cases hg : (loadedState env).lastCreationDate = todayOf env.nowEpochDay
    · rw [runMain_guard env tok settings htok hne hs hg]
      simp [guardOutcome]
    · rw [runMain_loop env tok settings htok hne hs hg]
      simp only [mainLoop]
      split <;> omega
  · intro env h
    rw [runMain_fatal env h]
    rfl

/-- Claim C7: the token validator returns false for every string that is
empty or whitespace-only, contains one of the three placeholder markers,
contains a character outside alphanumerics, hyphen and underscore, or has
length at most 10; and it returns true for a 20-character alphanumeric
string (any such string not containing the all-alphabetic marker
PLACEHOLDER, and the concrete instance shown). -/
theorem spec_token_validator :
    (∀ t : String, t.data.all isJsWhitespace = true → validateOAuthToken t = false) ∧
    (∀ t : String,
      (containsSub markerStars t.data || containsSub markerYourToken t.data ||
        containsSub markerPlaceholder t.data) = true → validateOAuthToken t = false) ∧
    (∀ t : String, (∃ c ∈ t.data, isAllowedTokenChar c = false) →
      validateOAuthToken t = false) ∧
    (∀ t : String, t.data.length ≤ 10 → validateOAuthToken t = false) ∧
    (∀ t : String, t.data.length = 20 → t.data.all isAlphanumChar = true →
      containsSub markerPlaceholder t.data = false → validateOAuthToken t = true) ∧
    validateOAuthToken "A1b2C3d4E5f6G7h8I9j0" = true := by
  refine ⟨?_, ?_, validate_false_of_badchar, ?_, ?_, by decide⟩
  · intro t h
    cases hd : t.data with
    | nil => unfold validateOAuthToken; rw [hd]; rfl
    | cons c cs =>
      apply validate_false_of_badchar
      refine ⟨c, by rw [hd]; exact List.mem_cons_self c cs, ?_⟩
      apply ws_not_allowed
      rw [hd] at h
      exact List.all_eq_true.mp h c (List.mem_cons_self c cs)
  · intro t h
    by_cases h0 : t.data = []
    · unfold validateOAuthToken
      rw [if_pos h0]
    · by_cases h1 : jsTrim t.data = []
      · unfold validateOAuthToken
        rw [if_neg h0, if_pos h1]
      · unfold validateOAuthToken
        rw [if_neg h0, if_neg h1, if_pos h]
  · intro t h
    by_cases h0 : t.data = []
    · unfold validateOAuthToken
      rw [if_pos h0]
    · by_cases h1 : jsTrim t.data = []
      · unfold validateOAuthToken
        rw [if_neg h0, if_pos h1]
      · by_cases h2 : (containsSub markerStars t.data || containsSub markerYourToken t.data ||
          containsSub markerPlaceholder t.data) = true
        · unfold validateOAuthToken
          rw [if_neg h0, if_neg h1, if_pos h2]
        · unfold validateOAuthToken
          rw [if_neg h0, if_neg h1, if_neg h2]
          have hdec : decide (t.data.length > 10) = false :=
            decide_eq_false (by omega)
          rw [hdec, Bool.and_false]
  · intro t hlen hall hnp
    have hne : t.data ≠ [] := by
      intro hnil
      rw [hnil] at hlen
      cases hlen
    have hnws : ∀ c ∈ t.data, isJsWhitespace c = false := fun c hc =>
      alnum_not_ws c (List.all_eq_true.mp hall c hc)
    have h1 : containsSub markerStars t.data = false := by
      by_contra hcon
      have hmem := containsSub_mem _ _ (Bool.of_not_eq_false hcon) (Char.ofNat 42)
        starChar_mem
      have := List.all_eq_true.mp hall _ hmem
      cases this
    have h2 : containsSub markerYourToken t.data = false := by
      by_contra hcon
      have hmem := containsSub_mem _ _ (Bool.of_not_eq_false hcon) (Char.ofNat 95)
        underscoreChar_mem
      have := List.all_eq_true.mp hall _ hmem
      cases this
    unfold validateOAuthToken
    rw [if_neg hne, jsTrim_id hnws, if_neg hne, if_neg (by simp [h1, h2, hnp])]
    have hgood : t.data.all isAllowedTokenChar = true :=
      List.all_eq_true.mpr fun c hc => alnum_allowed c (List.all_eq_true.mp hall c hc)
    simp [hne, hgood, hlen]

/-- Claim C8: name and description formatting are deterministic: the name
for (7, Night) contains Night and 7; the description template substitution
replaces only the first occurrence of each placeholder, so the standard
template yields Battle Day #3 and a template with a doubled placeholder
keeps its second occurrence. -/
theorem spec_formatting :
    containsSub ("Night").data (buildTournamentName 7 TType.Night).data = true ∧
    containsSub ("7").data (buildTournamentName 7 TType.Night).data = true ∧
    buildDescription 3 TType.Day "Battle \x7bTYPE\x7d #\x7bDAY_NUM\x7d" = "Battle Day #3" ∧
    buildDescription 5 TType.Night "\x7bTYPE\x7d \x7bTYPE\x7d" = "Night \x7bTYPE\x7d" ∧
    buildDescription 4 TType.Day "\x7bDAY_NUM\x7d-\x7bDAY_NUM\x7d" = "4-\x7bDAY_NUM\x7d" := by
  decide

/-- Claim C9: the orchestrator passes only the host team id itself as the
invited-team list and the client filters the host team out, so the invited
list is empty and every request body the run can build contains zero
entries with key teams[]. -/
theorem spec_no_invited_teams :
    (∀ p : CreateParams, p.teams = [p.hostTeamId] → invitedTeams p = []) ∧
    (∀ (tok : String) (settings : TournamentSettings) (dryRun : Bool) (t : TournamentDef),
      (buildBody (mkParams tok settings dryRun t)).filter
        (fun kv => decide (kv.1 = "teams[]")) = []) := by
  have hpart1 : ∀ p : CreateParams, p.teams = [p.hostTeamId] → invitedTeams p = [] := by
    intro p h
    unfold invitedTeams
    rw [h]
    by_cases hh : p.hostTeamId = "" <;> simp [hh]
  refine ⟨hpart1, ?_⟩
  intro tok settings dryRun t
  have h0 : invitedTeams (mkParams tok settings dryRun t) = [] := hpart1 _ rfl
  unfold buildBody
  rw [h0]
  rfl

/-- Claim C10: credential validation precedes the dry-run branch: with
dry-run enabled and an invalid token, all 14 submissions fail (without any
network call), nothing is persisted, and the run exits 1. -/
theorem spec_invalid_token_dry_run (env : Env) (tok : String) (settings : TournamentSettings)
    (htok : env.oauthToken = some tok) (hne : tok ≠ "")
    (hs : env.settingsFile = Except.ok settings)
    (hg : (loadedState env).lastCreationDate ≠ todayOf env.nowEpochDay)
    (hdry : dryRunOf env = true) (hinv : validateOAuthToken tok = false) :
    (runMain env).failureCount = 14 ∧ (runMain env).successCount = 0 ∧
    (runMain env).settingsWritten = none ∧ (runMain env).stateWritten = none ∧
    (runMain env).exitCode = 1 ∧
    (∀ r ∈ (runMain env).results, r.1.ok = false ∧ r.2 = false) := by
  have hall : ∀ (t : TournamentDef) (i : Nat),
      createTeamBattle (mkParams tok settings (dryRunOf env) t) (env.net i) =
      ({ ok := false, url := none, error := some invalidTokenMsg }, false) := by
    intro t i
    exact ctb_invalid _ _ (by simpa [mkParams] using hinv)
  rw [runMain_loop env tok settings htok hne hs hg]
  simp only [mainLoop]
  rw [submitAll_const _ _ _ _ _ hall, mkT_len,
      filter_replicate_neg (fun (r : SubmissionResult × Bool) => r.1.ok)
        ({ ok := false, url := none, error := some invalidTokenMsg }, false) rfl,
      filter_replicate_pos (fun (r : SubmissionResult × Bool) => !r.1.ok)
        ({ ok := false, url := none, error := some invalidTokenMsg }, false) rfl]
  refine ⟨by simp, by simp, by simp, by simp, by simp, ?_⟩
  intro r hr
  have := List.eq_of_mem_replicate hr
  rw [this]
  exact ⟨rfl, rfl⟩


/-- Witness for C1 at a concrete environment. -/
theorem spec_idempotence_guard_witness :
    (runMain witEnvGuard).exitCode = 0 ∧ (runMain witEnvGuard).results = [] ∧
    (runMain witEnvGuard).settingsWritten = none ∧
    (runMain witEnvGuard).stateWritten = none :=
  spec_idempotence_guard witEnvGuard witToken witSettings
    { lastCreationDate := todayOf 20000 } rfl (by decide) rfl rfl rfl

/-- Witness for C2 at a concrete environment with 14 successes. -/
theorem spec_finalize_persistence_witness :
    0 < (runMain witEnvDry).successCount ∧
    ((runMain witEnvDry).settingsWritten =
      some { witSettings with
             lastTournamentDayNum := witSettings.lastTournamentDayNum + 1 + 6 } ∧
     (runMain witEnvDry).stateWritten =
      some { lastCreationDate := todayOf witEnvDry.nowEpochDay }) :=
  ⟨by decide,
   (spec_finalize_persistence witEnvDry witToken witSettings rfl (by decide) rfl
     (by decide)).2.1 (by decide)⟩

/-- Witness for C4 at a concrete dry-run environment. -/
theorem spec_dry_run_witness :
    dryRunOf witEnvDry = true ∧ validateOAuthToken witToken = true ∧
    (∀ r ∈ (runMain witEnvDry).results, r.1.ok = true ∧ r.2 = false) ∧
    (runMain witEnvDry).exitCode = 0 ∧
    (runMain witEnvDry).settingsWritten =
      (runMain { witEnvDry with dryRunVar := none, net := realNet }).settingsWritten := by
  have h := spec_dry_run witEnvDry witToken witSettings rfl (by decide) rfl
    (by decide) rfl (by decide)
  exact ⟨by decide, by decide, h.2.1, h.2.2.2.2.1, h.2.2.2.2.2.1⟩

/-- Witness for C5 at concrete parameter bundles. -/
theorem spec_submission_error_handling_witness :
    validateOAuthToken witParamsBad.token = false ∧
    createTeamBattle witParamsBad (FetchResult.exn "x") =
      ({ ok := false, url := none, error := some invalidTokenMsg }, false) ∧
    createTeamBattle witParams
        (FetchResult.resp 404 "Not found" (JsonParse.parsed none) none) =
      ({ ok := false, url := none,
         error := some (toString 404 ++ ": " ++ "Not found") }, true) ∧
    createTeamBattle witParams (FetchResult.exn "TypeError") =
      ({ ok := false, url := none, error := some "TypeError" }, true) :=
  ⟨by decide,
   spec_submission_error_handling.1 witParamsBad (FetchResult.exn "x") (by decide),
   spec_submission_error_handling.2.1 witParams 404 "Not found"
     (JsonParse.parsed none) none (by decide) rfl (by decide),
   spec_submission_error_handling.2.2 witParams "TypeError" (by decide) rfl⟩

/-- Witness for C6: a successful dry run and a fatal environment. -/
theorem spec_exit_codes_witness :
    ((runMain witEnvDry).exitCode = 0 ↔ (runMain witEnvDry).failureCount = 0) ∧
    (runMain witEnvFatal).exitCode = 1 :=
  ⟨spec_exit_codes.1 witEnvDry witToken witSettings rfl (by decide) rfl,
   spec_exit_codes.2 witEnvFatal (Or.inl rfl)⟩

/-- Witness for C7 at concrete strings, one per rejection rule plus the
accepted 20-character alphanumeric string. -/
theorem spec_token_validator_witness :
    ("  ").data.all isJsWhitespace = true ∧ validateOAuthToken "  " = false ∧
    validateOAuthToken "YOUR_TOKENYOUR_TOKEN" = false ∧
    validateOAuthToken "bad token!bad token!" = false ∧
    ("short").data.length ≤ 10 ∧ validateOAuthToken "short" = false ∧
    validateOAuthToken "A1b2C3d4E5f6G7h8I9j0" = true := by
  have h := spec_token_validator
  exact ⟨by decide, h.1 "  " (by decide),
    h.2.1 "YOUR_TOKENYOUR_TOKEN" (by decide),
    h.2.2.1 "bad token!bad token!" ⟨Char.ofNat 32, by decide, by decide⟩,
    by decide, h.2.2.2.1 "short" (by decide),
    h.2.2.2.2.1 "A1b2C3d4E5f6G7h8I9j0" (by decide) (by decide) (by decide)⟩

/-- Witness for C9 at the concrete parameter bundle. -/
theorem spec_no_invited_teams_witness :
    witParams.teams = [witParams.hostTeamId] ∧ invitedTeams witParams = [] :=
  ⟨rfl, spec_no_invited_teams.1 witParams rfl⟩

/-- Witness for C10 at a concrete dry-run environment with a short token. -/
theorem spec_invalid_token_dry_run_witness :
    dryRunOf witEnvBadDry = true ∧ validateOAuthToken "abc" = false ∧
    (runMain witEnvBadDry).failureCount = 14 ∧
    (runMain witEnvBadDry).successCount = 0 ∧
    (runMain witEnvBadDry).settingsWritten = none ∧
    (runMain witEnvBadDry).stateWritten = none ∧
    (runMain witEnvBadDry).exitCode = 1 := by
  have h := spec_invalid_token_dry_run witEnvBadDry "abc" witSettings rfl
    (by decide) rfl (by decide) (by decide) (by decide)
  exact ⟨by decide, by decide, h.1, h.2.1, h.2.2.1, h.2.2.2.1, h.2.2.2.2.1⟩
